import Mathlib

/-!
Verification development for the derived-state cache and resolution engine of
`lando-core-next` (`src/lib/product.js`, the `Product` class).

The `Product` class is embedded shallowly: its instance fields become the
`ProductState` record, its methods become pure state-passing functions, and the
external collaborators that `src/lib/product.js` consumes but that are not part
of the source under `src/` (the layered `Config` store, the `FileStorage` /
`NoStorage` cache backends, the plugin-discovery and component-resolution
utilities) are modelled from the specification's description of their interface
contracts; each such definition carries a doc comment starting with
`Modelled from the spec:`.

JavaScript objects that hold manifest data are modelled by the `JVal`/`JObj`
value tree; object key order and duplicate insertion order are preserved, as JS
objects preserve insertion order.
-/

namespace LandoCoreNext

mutual
/-- A JSON-like value: either a string leaf or a nested object.  Plugin manifest
fragments and registry subtrees are values of this shape. -/
inductive JVal where
  | leaf : String → JVal
  | obj : JObj → JVal
deriving DecidableEq
inductive JObj where
  | nil : JObj
  | cons : String → JVal → JObj → JObj
deriving DecidableEq
end

/-- Association-list lookup, first binding wins (JS object property access). -/
def assocFind {α : Type} : List (String × α) → String → Option α
  | [], _ => none
  | (k, v) :: r, key => if k = key then some v else assocFind r key

/-- Lookup of a key in a nested object. -/
def JObj.find (o : JObj) (key : String) : Option JVal :=
  match o with
  | .nil => none
  | .cons k v r => if k = key then some v else JObj.find r key

/-- Walk a (non-empty tail of a) dotted path into a value. -/
def JVal.getPath : JVal → List String → Option JVal
  | v, [] => some v
  | .leaf _, _ :: _ => none
  | .obj kvs, k :: rest =>
    match kvs.find k with
    | some v => v.getPath rest
    | none => none

/-- Convert a nested object to a top-level fragment (an association list). -/
def jobjToFrag : JObj → List (String × JVal)
  | .nil => []
  | .cons k v r => (k, v) :: jobjToFrag r

/-- A manifest fragment: the top level of a plugin's manifest object. -/
abbrev Fragment := List (String × JVal)

/-- Walk a dotted path into a fragment.  The paths used by `product.js`
(`registry`, component keys, conflicting manifest leaves) are non-empty. -/
def fragGetPath (frag : Fragment) : List String → Option JVal
  | [] => none
  | k :: rest =>
    match assocFind frag k with
    | some v => v.getPath rest
    | none => none

/-- A discovered plugin as seen by `Product`: a name, a type (`core`, `global`,
...) and a manifest fragment.  `remove()` is an external filesystem operation
and has no effect on the modelled state. -/
structure Plugin where
  name : String
  type : String
  manifest : Fragment
deriving DecidableEq

/-- The plain serializable payload of a layered config: the ordered list of
(store name, store) layers, in insertion order. -/
abbrev ConfigData := List (String × Fragment)

/-- Modelled from the spec: `src/lib/config.js` is not under `src/`.  Per §6 the
ConfigFacade is a layered key/value store; per §4.2 its `add` operation merges
literal stores such that "last-added wins on key collision at the leaf level".
A `Config` is an id plus ordered layers; `get` searches the layers from the most
recently added to the first and returns the first layer that resolves the path,
so the last-added store wins at every leaf. -/
structure Config where
  id : String
  layers : ConfigData
deriving DecidableEq

/-- Search layers in the given order for the first that resolves the path. -/
def searchLayers : ConfigData → List String → Option JVal
  | [], _ => none
  | (_, store) :: rest, path =>
    match fragGetPath store path with
    | some v => some v
    | none => searchLayers rest path

/-- Modelled from the spec: layered lookup, last-added store wins (§4.2). -/
def Config.get (c : Config) (path : List String) : Option JVal :=
  searchLayers c.layers.reverse path

/-- Modelled from the spec: `add(name, {type: 'literal', store})` appends a
literal store as a new layer under the given name. -/
def Config.add (c : Config) (layerName : String) (store : Fragment) : Config :=
  { c with layers := c.layers ++ [(layerName, store)] }

/-- Modelled from the spec: `new Config(cachedData)` revives a config from its
plain serializable form (§4.1 `getManifest`: "returns a fresh wrapper around
it").  The revived wrapper is a new `Config` value built from the plain data,
not the cached data itself. -/
def Config.revive (d : ConfigData) : Config :=
  { id := "manifest", layers := d }

/-- Modelled from the spec: `Config.wrap(data, opts)` wraps raw data (here the
`registry` subtree of the manifest) in a fresh config so the component
resolver can look dotted keys up in it.  A missing or non-object registry
wraps to an empty config, so every lookup misses. -/
def Config.wrap (data : Option JVal) (wid : String) : Config :=
  match data with
  | some (.obj o) => { id := wid, layers := [(wid, jobjToFrag o)] }
  | _ => { id := wid, layers := [] }

/-- Strip the plugin-specific fields from a cloned manifest fragment before it
is added to the composed manifest (`delete store.name` etc. in
`getManifest`).  The `JSON.parse(JSON.stringify(...))` clone is the identity
on pure data. -/
def sanitizeStore (frag : Fragment) : Fragment :=
  frag.filter fun kv =>
    !(kv.1 == "name" || kv.1 == "description" || kv.1 == "enabled" || kv.1 == "hidden")

/-- The manifest-composition loop of `getManifest`: iterate the enabled plugins
in reverse discovery order and `add` each sanitized fragment under the
plugin's name into a fresh `manifest` config. -/
def buildManifest (plugins : List (String × Plugin)) : Config :=
  plugins.reverse.foldl (fun m np => m.add np.1 (sanitizeStore np.2.manifest))
    { id := "manifest", layers := [] }

/-- The derived-state cache: one slot per logical key used by `product.js`
(`plugins.enabled`, `plugins.disabled`, `plugins.invalid`, `manifest`,
`hooks`).  The `manifest` slot holds the plain serializable form of the
composed manifest, never a live `Config`. -/
structure Cache where
  pluginsEnabled : Option (List (String × Plugin))
  pluginsDisabled : Option (List (String × Plugin))
  pluginsInvalid : Option (List (String × Plugin))
  manifestData : Option ConfigData
  hooks : Option (List String)
deriving DecidableEq

def Cache.empty : Cache := ⟨none, none, none, none, none⟩

/-- The three disjoint collections returned by plugin discovery
(`utils/get-plugins`, external per §6 PluginSource). -/
structure DiscoverResult where
  enabled : List (String × Plugin)
  disabled : List (String × Plugin)
  invalids : List (String × Plugin)
deriving DecidableEq

/-- The external world as seen by one call: what discovery would return right
now, and what `Plugin.fetch` would return for an `addPlugin` call. -/
structure Env where
  discover : DiscoverResult
  fetchResult : Except String Plugin

/-- The state of one `Product` instance: its cache backend (`caching` selects
`FileStorage` versus the no-op `NoStorage`), the cache contents, the
`plugins` and `manifest` instance fields set by `#_init`, the
`_componentsCache` used by `getComponent`, the `hooks` instance field read by
`runHook` (never assigned anywhere in `product.js`), and instrumentation
counters: `discoveryCount` counts invocations of plugin discovery,
`hookComputeCount` counts runs of the hooks-discovery body, and `alloc` is a
fresh-object allocator for component instantiation. -/
structure ProductState where
  id : String
  caching : Bool
  cache : Cache
  plugins : List (String × Plugin)
  manifest : Config
  componentsCache : List (String × JVal)
  hooksField : Option (List String)
  discoveryCount : Nat
  hookComputeCount : Nat
  alloc : Nat

/-- Modelled from the spec: `has`/`get` of the cache backend.  `FileStorage` is
a real store; `NoStorage` is a no-op whose `has` is always false (§2: the
cache "may be a real persistent cache or a no-op"). -/
def ProductState.readEnabled (st : ProductState) : Option (List (String × Plugin)) :=
  if st.caching then st.cache.pluginsEnabled else none

def ProductState.readManifestData (st : ProductState) : Option ConfigData :=
  if st.caching then st.cache.manifestData else none

def ProductState.readHooks (st : ProductState) : Option (List String) :=
  if st.caching then st.cache.hooks else none

/-- Modelled from the spec: `set` on the cache backend.  `NoStorage.set` is a
no-op; `FileStorage.set` records the value. -/
def ProductState.writePluginCaches (st : ProductState) (d : DiscoverResult) : ProductState :=
  if st.caching then
    { st with cache := { st.cache with
        pluginsDisabled := some d.disabled
        pluginsEnabled := some d.enabled
        pluginsInvalid := some d.invalids } }
  else st

/-- Modelled from the spec: `FileStorage.set` serializes its value, so the
`manifest` slot receives the plain serializable form (the layers) of the live
`Config` handed to it (§4.1: "Caches the built manifest (its plain
serializable form, not a live object)"). -/
def ProductState.writeManifestData (st : ProductState) (d : ConfigData) : ProductState :=
  if st.caching then { st with cache := { st.cache with manifestData := some d } } else st

def ProductState.writeHooks (st : ProductState) (hs : List String) : ProductState :=
  if st.caching then { st with cache := { st.cache with hooks := some hs } } else st

/-- `Product.getPlugins`: return the cached enabled collection if present;
otherwise run discovery, cache all three collections under their keys, and
return the enabled collection. -/
def getPlugins (env : Env) (st : ProductState) : List (String × Plugin) × ProductState :=
  match st.readEnabled with
  | some cached => (cached, st)
  | none =>
    let d := env.discover
    let st1 := { st with discoveryCount := st.discoveryCount + 1 }
    (d.enabled, st1.writePluginCaches d)

/-- `Product.getManifest`: revive the manifest from the cache if present;
otherwise build it from `this.plugins` (reverse iteration, sanitized
fragments), cache its plain form, and return the live built config. -/
def getManifest (st : ProductState) : Config × ProductState :=
  match st.readManifestData with
  | some d => (Config.revive d, st)
  | none =>
    let m := buildManifest st.plugins
    (m, st.writeManifestData m.layers)

/-- `Product.getHooks`: return the cached list if present; otherwise run hooks
discovery — both manifest aggregation sources are commented out in the code,
so the computed list is `[].flat()`, the empty list — cache it and return it. -/
def getHooks (st : ProductState) : List String × ProductState :=
  match st.readHooks with
  | some cached => (cached, st)
  | none =>
    let hooks : List String := List.flatten ([] : List (List String))
    let st1 := { st with hookComputeCount := st.hookComputeCount + 1 }
    (hooks, st1.writeHooks hooks)

/-- `Product.getRegistry`: the `registry` subtree of the current manifest, raw
(`{decode: false, encode: false}` — no transformation). -/
def getRegistry (st : ProductState) : Option JVal :=
  st.manifest.get ["registry"]

/-- `Product.#_init`: assign `this.plugins = this.getPlugins()` and then
`this.manifest = this.getManifest()`, in that order. -/
def initState (env : Env) (st : ProductState) : ProductState :=
  let r := getPlugins env st
  let st2 := { r.2 with plugins := r.1 }
  let r2 := getManifest st2
  { r2.2 with manifest := r2.1 }

/-- `this.#_cache.flush()`: every derived-cache entry is dropped at once. -/
def flushCache (st : ProductState) : ProductState :=
  { st with cache := Cache.empty }

/-- `Product.#_reint` (exposed as the public `reinit()`): flush the whole cache
store, then run `#_init` again. -/
def reinit (env : Env) (st : ProductState) : ProductState :=
  initState env (flushCache st)

/-- Construction-time configuration: the product id, the `core.caching` flag
selecting the cache backend, and the persisted contents a pre-existing
`FileStorage` directory may already hold. -/
structure BootConfig where
  id : String
  caching : Bool
  persisted : Cache

/-- The `Product` constructor: select the cache backend from `core.caching`
(when caching is disabled any stale persisted cache directory is flushed out
of band, so the no-op backend starts empty), then run the first `#_init`
pass synchronously. -/
def construct (env : Env) (cfg : BootConfig) : ProductState :=
  let cache0 := if cfg.caching then cfg.persisted else Cache.empty
  initState env
    { id := cfg.id
      caching := cfg.caching
      cache := cache0
      plugins := []
      manifest := { id := "manifest", layers := [] }
      componentsCache := []
      hooksField := none
      discoveryCount := 0
      hookComputeCount := 0
      alloc := 0 }

/-- Split a string at a separator character. -/
def splitCharAux (sep : Char) : List Char → List Char → List String
  | [], acc => [String.mk acc.reverse]
  | c :: rest, acc =>
    if c = sep then String.mk acc.reverse :: splitCharAux sep rest []
    else splitCharAux sep rest (c :: acc)

def splitChar (sep : Char) (s : String) : List String :=
  splitCharAux sep s.toList []

/-- A dotted component key, as a registry path. -/
def componentPath (component : String) : List String :=
  splitChar '.' component

/-- Modelled from the spec: `utils/parse-package-name.js` is not under `src/`.
Per §4.1 `getPlugin` it "normalizes a possibly-decorated plugin identifier to
its bare name": a scoped name keeps its scope, and any trailing `@version`
decoration is dropped. -/
def parsePackageName (name : String) : String :=
  match name.toList with
  | '@' :: rest =>
    (match splitChar '@' (String.mk rest) with
     | base :: _ => String.mk ('@' :: base.toList)
     | [] => name)
  | _ =>
    (match splitChar '@' name with
     | base :: _ => base
     | [] => name)

/-- `Product.getPlugin`: normalize the identifier and look it up in the current
`plugins` mapping; an absent plugin is an absent result, not an error. -/
def getPlugin (st : ProductState) (name : String) : Option Plugin :=
  assocFind st.plugins (parsePackageName name)

/-- The two errors `removePlugin` can throw. -/
inductive RemoveError where
  | notFound (name : String)
  | coreProtected (name : String)
deriving DecidableEq

/-- `Product.removePlugin`: resolve the plugin by name; throw NotFound if
absent; throw Protected if its type is `core`; otherwise remove it (an
external filesystem operation), reinit, and return the removed plugin. -/
def removePlugin (env : Env) (st : ProductState) (name : String) :
    Except RemoveError Plugin × ProductState :=
  match getPlugin st name with
  | none => (.error (.notFound name), st)
  | some plugin =>
    if plugin.type = "core" then (.error (.coreProtected plugin.name), st)
    else (.ok plugin, reinit env st)

/-- A resolved component instance, identified by its allocation number. -/
structure CompInstance where
  iid : Nat
  component : String
deriving DecidableEq

/-- An instance cache scope: component key to instance. -/
abbrev InstCache := List (String × CompInstance)

/-- A resolved-reference cache scope: component key to registry reference. -/
abbrev RefCache := List (String × JVal)

/-- Modelled from the spec: `utils/get-component.js` is not under `src/`.  Per
§4.3 the resolver walks the registry for the dotted key; if the given cache
scope already holds a resolved reference for the key it returns that instead
of recomputing; it fails with NotFound when the key has no registry entry. -/
def resolveComponentRef (registry : Config) (component : String) (cache : RefCache) :
    Except String JVal × RefCache :=
  match assocFind cache component with
  | some r => (.ok r, cache)
  | none =>
    match registry.get (componentPath component) with
    | some r => (.ok r, (component, r) :: cache)
    | none => (.error ("could not find component " ++ component), cache)

/-- Modelled from the spec: `utils/get-component-instance.js` is not under
`src/`.  Per §4.3 the instance variant uses the cache scope it is given: a
hit returns the stored instance; otherwise the reference is resolved from
the registry, a new object is constructed (a fresh allocation), stored in
the given scope when one was supplied, and returned.  With no scope
supplied nothing is stored. -/
def resolveCompInstance (registry : Config) (component : String)
    (cache : Option InstCache) (alloc : Nat) :
    Except String CompInstance × Option InstCache × Nat :=
  match cache.bind (fun c => assocFind c component) with
  | some inst => (.ok inst, cache, alloc)
  | none =>
    match registry.get (componentPath component) with
    | some _ =>
      let inst : CompInstance := ⟨alloc, component⟩
      (.ok inst, cache.map (fun c => (component, inst) :: c), alloc + 1)
    | none => (.error ("could not find component " ++ component), cache, alloc)

/-- The registry view built by `getComponent` / `getComponentInstance`: the raw
registry subtree wrapped in a fresh config named after the product id. -/
def registryView (st : ProductState) : Config :=
  Config.wrap (getRegistry st) (st.id ++ "-class-cache")

/-- `Product.getComponent`: synchronous class resolution.  The cache scope
defaults to the per-instance `this._componentsCache`; a caller-supplied
scope is used (and updated) instead, leaving the instance field alone. -/
def getComponent (st : ProductState) (component : String) (cacheOpt : Option RefCache) :
    Except String JVal × ProductState × Option RefCache :=
  match cacheOpt with
  | none =>
    let r := resolveComponentRef (registryView st) component st.componentsCache
    (r.1, { st with componentsCache := r.2 }, none)
  | some c =>
    let r := resolveComponentRef (registryView st) component c
    (r.1, st, some r.2)

/-- `Product.getComponentInstance`: builds the registry view and forwards
`opts.cache` to the external resolver unchanged — when the caller omits the
option, no cache scope at all is passed (`cache: opts.cache` is undefined);
there is no per-instance default here, unlike `getComponent`. -/
def getComponentInstance (st : ProductState) (component : String)
    (cacheOpt : Option InstCache) :
    Except String CompInstance × Option InstCache × ProductState :=
  let r := resolveCompInstance (registryView st) component cacheOpt st.alloc
  (r.1, r.2.1, { st with alloc := r.2.2 })

/-- `Product.addPlugin`: resolve the `core.plugin-installer` component instance
(an argument of the fetch call, evaluated first), then fetch the plugin; a
fetch failure propagates unchanged with no reinit; on success reinit and
return the fetched plugin. -/
def addPlugin (env : Env) (st : ProductState) : Except String Plugin × ProductState :=
  match getComponentInstance st "core.plugin-installer" none with
  | (.error e, _, st1) => (.error e, st1)
  | (.ok _, _, st1) =>
    match env.fetchResult with
    | .error e => (.error e, st1)
    | .ok plugin => (.ok plugin, reinit env st1)

/-- The argument record `Product.runHook` hands to the external hook runner
`utils/run-hook`: the event, the payload, `this.hooks` (an instance field),
the context object exposing the product under its configured id and under
the fixed alias `product`, and the debug logger. -/
structure HookCall where
  event : String
  payload : String
  hooks : Option (List String)
  contextKeys : List String
  usesDebugLogger : Bool
deriving DecidableEq

/-- `Product.runHook`: delegate to the external hook runner, passing
`this.hooks` as the hook list. -/
def runHook (st : ProductState) (event payload : String) : HookCall :=
  { event := event
    payload := payload
    hooks := st.hooksField
    contextKeys := [st.id, "product"]
    usesDebugLogger := true }

/-! ## Helper lemmas -/

theorem foldl_add_layers (l : List (String × Plugin)) (c : Config) :
    (l.foldl (fun m np => m.add np.1 (sanitizeStore np.2.manifest)) c).layers
      = c.layers ++ l.map (fun np => (np.1, sanitizeStore np.2.manifest)) := by
  induction l generalizing c with
  | nil => simp
  | cons hd tl ih =>
    rw [List.foldl_cons, ih]
    simp [Config.add]

theorem foldl_add_id (l : List (String × Plugin)) (c : Config) :
    (l.foldl (fun m np => m.add np.1 (sanitizeStore np.2.manifest)) c).id = c.id := by
  induction l generalizing c with
  | nil => rfl
  | cons hd tl ih =>
    rw [List.foldl_cons, ih]
    rfl

theorem buildManifest_layers (ps : List (String × Plugin)) :
    (buildManifest ps).layers
      = (ps.map fun np => (np.1, sanitizeStore np.2.manifest)).reverse := by
  unfold buildManifest
  rw [foldl_add_layers]
  simp [List.map_reverse]

theorem buildManifest_id (ps : List (String × Plugin)) :
    (buildManifest ps).id = "manifest" := by
  unfold buildManifest
  rw [foldl_add_id]

theorem config_eq (c1 c2 : Config) (h1 : c1.id = c2.id) (h2 : c1.layers = c2.layers) :
    c1 = c2 := by
  cases c1; cases c2; simp_all

theorem revive_buildManifest (ps : List (String × Plugin)) :
    Config.revive (buildManifest ps).layers = buildManifest ps :=
  config_eq _ _ (by simp [Config.revive, buildManifest_id]) rfl

theorem buildManifest_get_head (n : String) (p : Plugin)
    (rest : List (String × Plugin)) (path : List String) (v : JVal)
    (hv : fragGetPath (sanitizeStore p.manifest) path = some v) :
    (buildManifest ((n, p) :: rest)).get path = some v := by
  simp [Config.get, buildManifest_layers, List.reverse_reverse, searchLayers, hv]

theorem initState_fields (env : Env) (st : ProductState) (h : st.cache = Cache.empty) :
    (initState env st).plugins = env.discover.enabled ∧
    (initState env st).manifest = buildManifest env.discover.enabled ∧
    (initState env st).caching = st.caching ∧
    (initState env st).id = st.id ∧
    (initState env st).cache.pluginsEnabled
      = (if st.caching then some env.discover.enabled else none) ∧
    (initState env st).cache.pluginsDisabled
      = (if st.caching then some env.discover.disabled else none) ∧
    (initState env st).cache.pluginsInvalid
      = (if st.caching then some env.discover.invalids else none) ∧
    (initState env st).cache.manifestData
      = (if st.caching then some (buildManifest env.discover.enabled).layers else none) ∧
    (initState env st).cache.hooks = none ∧
    (initState env st).hooksField = st.hooksField := by
  cases hc : st.caching <;>
    simp [initState, getPlugins, getManifest, ProductState.readEnabled,
      ProductState.readManifestData, ProductState.writePluginCaches,
      ProductState.writeManifestData, h, hc, Cache.empty]

theorem getPlugins_hooksField (env : Env) (st : ProductState) :
    (getPlugins env st).2.hooksField = st.hooksField := by
  unfold getPlugins
  rcases h : st.readEnabled with - | v <;>
    simp [h, ProductState.writePluginCaches] <;> split <;> rfl

theorem getManifest_hooksField (st : ProductState) :
    (getManifest st).2.hooksField = st.hooksField := by
  unfold getManifest
  rcases h : st.readManifestData with - | d <;>
    simp [h, ProductState.writeManifestData] <;> split <;> rfl

theorem initState_hooksField (env : Env) (st : ProductState) :
    (initState env st).hooksField = st.hooksField := by
  unfold initState
  rw [getManifest_hooksField, getPlugins_hooksField]

theorem construct_hooksField (env : Env) (cfg : BootConfig) :
    (construct env cfg).hooksField = none := by
  unfold construct
  rw [initState_hooksField]

theorem construct_fields (env : Env) (cfg : BootConfig) (h : cfg.persisted = Cache.empty) :
    (construct env cfg).plugins = env.discover.enabled ∧
    (construct env cfg).manifest = buildManifest env.discover.enabled ∧
    (construct env cfg).caching = cfg.caching ∧
    (construct env cfg).id = cfg.id := by
  have h0 : (if cfg.caching then cfg.persisted else Cache.empty) = Cache.empty := by
    simp [h]
  have hf := initState_fields env
    { id := cfg.id
      caching := cfg.caching
      cache := if cfg.caching then cfg.persisted else Cache.empty
      plugins := []
      manifest := { id := "manifest", layers := [] }
      componentsCache := []
      hooksField := none
      discoveryCount := 0
      hookComputeCount := 0
      alloc := 0 } h0
  exact ⟨hf.1, hf.2.1, hf.2.2.1, hf.2.2.2.1⟩

/-! ## Concrete fixtures used by witnesses and counterexamples -/

def fragA : Fragment :=
  [("x", .leaf "a"), ("name", .leaf "A"), ("description", .leaf "first plugin"),
   ("enabled", .leaf "true"), ("hidden", .leaf "false")]

def pluginA : Plugin := ⟨"A", "global", fragA⟩

def pluginB : Plugin := ⟨"B", "global", [("x", .leaf "b")]⟩

/-- A core plugin whose fragment also declares the component registry. -/
def pluginCore : Plugin :=
  ⟨"C", "core",
   [("x", .leaf "c"),
    ("registry",
     .obj (.cons "core"
       (.obj (.cons "plugin-installer" (.leaf "@lando/plugin-installer") .nil)) .nil))]⟩

def pluginNew : Plugin := ⟨"N", "global", [("x", .leaf "n")]⟩

def discoW : DiscoverResult :=
  { enabled := [("A", pluginA), ("B", pluginB), ("C", pluginCore)]
    disabled := [("D", ⟨"D", "global", []⟩)]
    invalids := [] }

def envW : Env := { discover := discoW, fetchResult := .ok pluginNew }

def envErr : Env := { discover := discoW, fetchResult := .error "boom" }

/-- Caching enabled, fresh install (no persisted cache). -/
def cfgOn : BootConfig := { id := "lando", caching := true, persisted := Cache.empty }

/-- Caching disabled: the no-op storage backend. -/
def cfgOff : BootConfig := { id := "lando", caching := false, persisted := Cache.empty }

def stOn : ProductState := construct envW cfgOn

def stOff : ProductState := construct envW cfgOff

/-- A caching-enabled state whose cache is still empty (pre-`#_init`). -/
def stRaw : ProductState :=
  { id := "lando"
    caching := true
    cache := Cache.empty
    plugins := []
    manifest := { id := "manifest", layers := [] }
    componentsCache := []
    hooksField := none
    discoveryCount := 0
    hookComputeCount := 0
    alloc := 0 }

theorem post_init_reads (env : Env) (st : ProductState) (h : st.cache = Cache.empty) :
    (getPlugins env (initState env st)).1 = env.discover.enabled ∧
    (getManifest (initState env st)).1 = buildManifest env.discover.enabled := by
  obtain ⟨h1, -, h3, -, h5, -, -, h8, -, -⟩ := initState_fields env st h
  constructor
  · have hre : (initState env st).readEnabled
        = (if st.caching then some env.discover.enabled else none) := by
      rw [ProductState.readEnabled, h3, h5]
      cases st.caching <;> simp
    cases hc : st.caching <;> rw [hc] at hre <;> simp at hre <;>
      simp [getPlugins, hre]
  · have hrm : (initState env st).readManifestData
        = (if st.caching then some (buildManifest env.discover.enabled).layers else none) := by
      rw [ProductState.readManifestData, h3, h8]
      cases st.caching <;> simp
    cases hc : st.caching <;> rw [hc] at hrm <;> simp at hrm <;>
      simp [getManifest, hrm, h1, revive_buildManifest]

/-! ## Claims -/

/-- C1: `getManifest()` iterates the enabled plugins in reverse discovery order
and inserts each sanitized fragment under the plugin's name (second conjunct),
so when every enabled plugin declares a value at the same leaf path, the
composed manifest's value at that path is the first-discovered plugin's
declared value — first-discovered wins. -/
theorem C1_first_discovered_wins (env : Env) (cfg : BootConfig)
    (hpersist : cfg.persisted = Cache.empty)
    (n : String) (p : Plugin) (rest : List (String × Plugin))
    (path : List String) (v : JVal)
    (hdisc : env.discover.enabled = (n, p) :: rest)
    (hfirst : fragGetPath (sanitizeStore p.manifest) path = some v)
    (hall : ∀ q ∈ env.discover.enabled,
      (fragGetPath (sanitizeStore q.2.manifest) path).isSome = true) :
    (construct env cfg).manifest.get path = some v ∧
    (construct env cfg).manifest.layers
      = (env.discover.enabled.map fun np => (np.1, sanitizeStore np.2.manifest)).reverse := by
  obtain ⟨-, hm, -, -⟩ := construct_fields env cfg hpersist
  rw [hm, hdisc]
  exact ⟨buildManifest_get_head n p rest path v hfirst, buildManifest_layers _⟩

theorem C1_first_discovered_wins_witness :
    (construct envW cfgOn).manifest.get ["x"] = some (.leaf "a") ∧
    (construct envW cfgOn).manifest.layers
      = (envW.discover.enabled.map fun np => (np.1, sanitizeStore np.2.manifest)).reverse :=
  C1_first_discovered_wins envW cfgOn rfl "A" pluginA [("B", pluginB), ("C", pluginCore)]
    ["x"] (.leaf "a") rfl rfl (by decide)

/-- C2: `reinit()` is exactly a flush of the whole cache store (every derived
entry dropped at once) followed by `#_init`, which recomputes `plugins` first
and then `manifest` from them; once `reinit` returns, the `plugins` and
`manifest` fields and the results of `getPlugins()` and `getManifest()` all
reflect the post-reinit discovery set, so no caller can observe a manifest
built from a stale plugin set. -/
theorem C2_reinit_atomic (env : Env) (st : ProductState) :
    reinit env st = initState env (flushCache st) ∧
    (flushCache st).cache = Cache.empty ∧
    (reinit env st).plugins = env.discover.enabled ∧
    (reinit env st).manifest = buildManifest env.discover.enabled ∧
    (getPlugins env (reinit env st)).1 = env.discover.enabled ∧
    (getManifest (reinit env st)).1 = buildManifest env.discover.enabled := by
  obtain ⟨h1, h2, -⟩ := initState_fields env (flushCache st) rfl
  obtain ⟨h3, h4⟩ := post_init_reads env (flushCache st) rfl
  exact ⟨rfl, rfl, h1, h2, h3, h4⟩

/-- C3: `removePlugin(name)` throws NotFound when no plugin of that name exists
and Protected when the plugin's type is `core`, leaving the state — cache
included — untouched in both cases (no reinit); otherwise it removes the
plugin, reinits, and returns the removed plugin descriptor. -/
theorem C3_removePlugin (env : Env) (st : ProductState) (name : String) :
    (getPlugin st name = none →
      removePlugin env st name = (.error (.notFound name), st)) ∧
    (∀ p, getPlugin st name = some p → p.type = "core" →
      removePlugin env st name = (.error (.coreProtected p.name), st)) ∧
    (∀ p, getPlugin st name = some p → p.type ≠ "core" →
      removePlugin env st name = (.ok p, reinit env st)) := by
  refine ⟨fun h => ?_, fun p h htype => ?_, fun p h htype => ?_⟩
  · simp [removePlugin, h]
  · simp [removePlugin, h, htype]
  · simp [removePlugin, h, htype]

theorem C3_removePlugin_witness :
    removePlugin envW stOn "ghost" = (.error (.notFound "ghost"), stOn) ∧
    removePlugin envW stOn "C" = (.error (.coreProtected "C"), stOn) ∧
    removePlugin envW stOn "B" = (.ok pluginB, reinit envW stOn) :=
  ⟨(C3_removePlugin envW stOn "ghost").1 (by decide),
   (C3_removePlugin envW stOn "C").2.1 pluginCore (by decide) rfl,
   (C3_removePlugin envW stOn "B").2.2 pluginB (by decide) (by decide)⟩

/-- C4: when the installer component resolves and the underlying fetch fails,
`addPlugin` propagates that failure unchanged, performs no reinit and no cache
flush — the returned state keeps the cache, plugins and manifest of the caller
— while after a successful fetch it reinits and returns the fetched plugin
descriptor. -/
theorem C4_addPlugin_fetch (env : Env) (st : ProductState) (inst : CompInstance)
    (hinst : (getComponentInstance st "core.plugin-installer" none).1 = .ok inst) :
    (∀ e, env.fetchResult = .error e →
      addPlugin env st
        = (.error e, (getComponentInstance st "core.plugin-installer" none).2.2) ∧
      (addPlugin env st).2.cache = st.cache ∧
      (addPlugin env st).2.plugins = st.plugins ∧
      (addPlugin env st).2.manifest = st.manifest ∧
      (addPlugin env st).2.discoveryCount = st.discoveryCount) ∧
    (∀ p, env.fetchResult = .ok p →
      addPlugin env st
        = (.ok p, reinit env ((getComponentInstance st "core.plugin-installer" none).2.2))) := by
  have heta : getComponentInstance st "core.plugin-installer" none
      = (Except.ok inst, (getComponentInstance st "core.plugin-installer" none).2.1,
         (getComponentInstance st "core.plugin-installer" none).2.2) := by
    rw [← hinst]
  constructor
  · intro e he
    rw [addPlugin, heta, he]
    exact ⟨rfl, rfl, rfl, rfl, rfl⟩
  · intro p hp
    rw [addPlugin, heta, hp]

theorem C4_addPlugin_fetch_witness :
    (addPlugin envErr stOn
      = (.error "boom", (getComponentInstance stOn "core.plugin-installer" none).2.2) ∧
     (addPlugin envErr stOn).2.cache = stOn.cache ∧
     (addPlugin envErr stOn).2.plugins = stOn.plugins ∧
     (addPlugin envErr stOn).2.manifest = stOn.manifest ∧
     (addPlugin envErr stOn).2.discoveryCount = stOn.discoveryCount) ∧
    addPlugin envW stOn
      = (.ok pluginNew, reinit envW ((getComponentInstance stOn "core.plugin-installer" none).2.2)) :=
  ⟨(C4_addPlugin_fetch envErr stOn ⟨0, "core.plugin-installer"⟩ rfl).1 "boom" rfl,
   (C4_addPlugin_fetch envW stOn ⟨0, "core.plugin-installer"⟩ rfl).2 pluginNew rfl⟩

/-- C5 counterexample: the claim quantifies over every Bootstrap instance, but
on an instance constructed with caching disabled (`core.caching` false selects
the no-op `NoStorage` backend, whose `has` is always false and whose `set`
stores nothing) two successive `getPlugins()` calls without an intervening
reinit invoke plugin discovery twice — the discovery counter rises from 1 at
construction to 3 — and the first call caches none of the three collections,
contradicting "plugin discovery is invoked at most once" and "caches all three
collections under their respective keys". -/
theorem C5_counterexample :
    stOff.discoveryCount = 1 ∧
    (getPlugins envW (getPlugins envW stOff).2).2.discoveryCount = 3 ∧
    ¬ ((getPlugins envW (getPlugins envW stOff).2).2.discoveryCount
        ≤ stOff.discoveryCount + 1) ∧
    (getPlugins envW stOff).2.cache.pluginsEnabled = none ∧
    (getPlugins envW stOff).2.cache.pluginsDisabled = none ∧
    (getPlugins envW stOff).2.cache.pluginsInvalid = none := by
  refine ⟨rfl, rfl, by decide, rfl, rfl, rfl⟩

/-- C5 amended: on a Bootstrap instance whose caching is enabled (the recording
`FileStorage` backend), two successive `getPlugins()` calls without an
intervening reinit return the identical cached enabled collection and leave the
state unchanged after the first call, discovery is invoked at most once across
the two calls, and a first uncached call stores all three collections under
their respective keys and returns the enabled one. -/
theorem C5_cached_idempotent (env : Env) (st : ProductState) (hc : st.caching = true) :
    (getPlugins env (getPlugins env st).2).1 = (getPlugins env st).1 ∧
    (getPlugins env (getPlugins env st).2).2 = (getPlugins env st).2 ∧
    (getPlugins env (getPlugins env st).2).2.discoveryCount ≤ st.discoveryCount + 1 ∧
    (st.cache.pluginsEnabled = none →
      (getPlugins env st).1 = env.discover.enabled ∧
      (getPlugins env st).2.cache.pluginsEnabled = some env.discover.enabled ∧
      (getPlugins env st).2.cache.pluginsDisabled = some env.discover.disabled ∧
      (getPlugins env st).2.cache.pluginsInvalid = some env.discover.invalids) := by
  rcases h : st.cache.pluginsEnabled with - | v
  · simp [getPlugins, ProductState.readEnabled, ProductState.writePluginCaches, hc, h]
  · have hre : st.readEnabled = some v := by simp [ProductState.readEnabled, hc, h]
    simp [getPlugins, hre, h]

theorem C5_cached_idempotent_witness :
    ((getPlugins envW (getPlugins envW stRaw).2).1 = (getPlugins envW stRaw).1 ∧
     (getPlugins envW (getPlugins envW stRaw).2).2 = (getPlugins envW stRaw).2 ∧
     (getPlugins envW (getPlugins envW stRaw).2).2.discoveryCount
        ≤ stRaw.discoveryCount + 1 ∧
     (stRaw.cache.pluginsEnabled = none →
       (getPlugins envW stRaw).1 = envW.discover.enabled ∧
       (getPlugins envW stRaw).2.cache.pluginsEnabled = some envW.discover.enabled ∧
       (getPlugins envW stRaw).2.cache.pluginsDisabled = some envW.discover.disabled ∧
       (getPlugins envW stRaw).2.cache.pluginsInvalid = some envW.discover.invalids)) ∧
    stRaw.cache.pluginsEnabled = none :=
  ⟨C5_cached_idempotent envW stRaw rfl, rfl⟩

/-- C6: no entry of the composed manifest contains a `name`, `description`,
`enabled` or `hidden` key inherited from a plugin fragment: every store placed
in the manifest's layers is the sanitized fragment, with those four fields
stripped before insertion. -/
theorem C6_field_stripping (ps : List (String × Plugin)) (layerName : String)
    (store : Fragment) (hmem : (layerName, store) ∈ (buildManifest ps).layers)
    (k : String) (v : JVal) (hkv : (k, v) ∈ store) :
    k ≠ "name" ∧ k ≠ "description" ∧ k ≠ "enabled" ∧ k ≠ "hidden" := by
  rw [buildManifest_layers, List.mem_reverse, List.mem_map] at hmem
  obtain ⟨np, -, heq⟩ := hmem
  have hstore : store = sanitizeStore np.2.manifest := by
    have h2 := congrArg Prod.snd heq
    simpa using h2.symm
  subst hstore
  have hp := List.of_mem_filter hkv
  simp at hp
  exact ⟨hp.1.1.1, hp.1.1.2, hp.1.2, hp.2⟩

theorem C6_field_stripping_witness :
    "x" ≠ "name" ∧ "x" ≠ "description" ∧ "x" ≠ "enabled" ∧ "x" ≠ "hidden" :=
  C6_field_stripping [("A", pluginA)] "A" (sanitizeStore pluginA.manifest)
    (by decide) "x" (.leaf "a") (by decide)

/-- C7: the `manifest` cache slot holds the plain serializable form of the
composed manifest (`ConfigData`, by type never a live `Config`); a cache hit
returns a wrapper freshly revived from that plain data rather than the cached
value itself, and a fresh build returns the live just-built config, stores its
plain form (when the backend records writes), after which the next call again
returns a fresh wrapper revived from the stored plain form. -/
theorem C7_manifest_cache_form (st : ProductState) :
    (∀ d, st.readManifestData = some d → getManifest st = (Config.revive d, st)) ∧
    (st.readManifestData = none →
      (getManifest st).1 = buildManifest st.plugins ∧
      (st.caching = true →
        (getManifest st).2.cache.manifestData = some (buildManifest st.plugins).layers ∧
        getManifest (getManifest st).2
          = (Config.revive (buildManifest st.plugins).layers, (getManifest st).2))) := by
  constructor
  · intro d hd
    unfold getManifest
    rw [hd]
  · intro hnone
    have hfirst : getManifest st
        = (buildManifest st.plugins,
           st.writeManifestData (buildManifest st.plugins).layers) := by
      unfold getManifest
      rw [hnone]
    rw [hfirst]
    refine ⟨rfl, fun hc => ?_⟩
    simp [ProductState.writeManifestData, hc, getManifest, ProductState.readManifestData]

theorem C7_manifest_cache_form_witness :
    getManifest stOn = (Config.revive (buildManifest discoW.enabled).layers, stOn) ∧
    (getManifest stRaw).1 = buildManifest stRaw.plugins ∧
    (getManifest stRaw).2.cache.manifestData = some (buildManifest stRaw.plugins).layers ∧
    getManifest (getManifest stRaw).2
      = (Config.revive (buildManifest stRaw.plugins).layers, (getManifest stRaw).2) := by
  have h1 := (C7_manifest_cache_form stOn).1 (buildManifest discoW.enabled).layers rfl
  have h2 := (C7_manifest_cache_form stRaw).2 rfl
  exact ⟨h1, h2.1, (h2.2 rfl).1, (h2.2 rfl).2⟩

/-- C8 (code bug): the claim — and §4.1 of the spec — say `runHook` passes the
cached hook list produced by `getHooks`, but `product.js` line 258 passes
`this.hooks`, an instance field that no code path ever assigns (`#_init` sets
only `plugins` and `manifest`), so the hook runner always receives `undefined`
(`none` here) even though the cached hook list `getHooks` would return is `[]`
— `some [] ≠ none`.  The context-object part of the claim does hold: the
product is exposed under its configured id and the fixed alias `product`. -/
theorem C8_runHook_hooks_never_assigned :
    (∀ (env : Env) (cfg : BootConfig) (e d : String),
      (runHook (construct env cfg) e d).hooks = none) ∧
    (runHook stOn "boot" "data").hooks = none ∧
    (getHooks stOn).1 = [] ∧
    some ((getHooks stOn).1) ≠ (runHook stOn "boot" "data").hooks ∧
    (runHook stOn "boot" "data").contextKeys = ["lando", "product"] := by
  refine ⟨fun env cfg e d => ?_, rfl, rfl, by decide, rfl⟩
  show (construct env cfg).hooksField = none
  exact construct_hooksField env cfg

/-- C9 counterexample: on a concrete Bootstrap whose registry resolves
`core.plugin-installer`, two successive `getComponentInstance` calls with the
cache option omitted construct two distinct instances (allocations 0 and 1):
no per-Bootstrap default instance cache is applied, refuting the claim that
such calls return the same instance. -/
theorem C9_counterexample :
    (getComponentInstance stOn "core.plugin-installer" none).1
      = .ok ⟨0, "core.plugin-installer"⟩ ∧
    (getComponentInstance
        (getComponentInstance stOn "core.plugin-installer" none).2.2
        "core.plugin-installer" none).1
      = .ok ⟨1, "core.plugin-installer"⟩ ∧
    (⟨0, "core.plugin-installer"⟩ : CompInstance) ≠ ⟨1, "core.plugin-installer"⟩ := by
  refine ⟨rfl, rfl, by decide⟩

/-- C9 amended: `getComponentInstance` forwards the caller's cache option to
the external resolver unchanged, so with the option omitted no cache scope is
used and every call constructs a fresh instance; an instance is shared between
calls only through a caller-supplied scope (a freshly supplied empty scope
forces reconstruction), and the per-Bootstrap `_componentsCache` default is
used only by `getComponent` for resolved class references. -/
theorem C9_no_default_instance_cache (st : ProductState) (component : String) (ref : JVal)
    (hreg : (registryView st).get (componentPath component) = some ref) :
    ((getComponentInstance st component none).1 = .ok ⟨st.alloc, component⟩ ∧
     (getComponentInstance (getComponentInstance st component none).2.2 component none).1
        = .ok ⟨st.alloc + 1, component⟩) ∧
    (getComponentInstance st component (some [])
        = (.ok ⟨st.alloc, component⟩, some [(component, ⟨st.alloc, component⟩)],
           { st with alloc := st.alloc + 1 })) ∧
    (∀ inst : CompInstance,
      (getComponentInstance st component (some [(component, inst)])).1 = .ok inst ∧
      (getComponentInstance st component (some [(component, inst)])).2.2.alloc = st.alloc) ∧
    (assocFind st.componentsCache component = none →
      (getComponent st component none).1 = .ok ref ∧
      (getComponent st component none).2.1.componentsCache
        = (component, ref) :: st.componentsCache) := by
  have hrv : registryView { st with alloc := st.alloc + 1 } = registryView st := rfl
  refine ⟨⟨?_, ?_⟩, ?_, fun inst => ⟨?_, ?_⟩, fun hcc => ?_⟩
  · simp [getComponentInstance, resolveCompInstance, hreg]
  · simp [getComponentInstance, resolveCompInstance, hreg, hrv]
  · simp [getComponentInstance, resolveCompInstance, hreg, assocFind]
  · simp [getComponentInstance, resolveCompInstance, assocFind]
  · simp [getComponentInstance, resolveCompInstance, assocFind]
  · simp [getComponent, resolveComponentRef, hreg, hcc]

theorem C9_no_default_instance_cache_witness :
    ((getComponentInstance stOn "core.plugin-installer" none).1
        = .ok ⟨stOn.alloc, "core.plugin-installer"⟩ ∧
     (getComponentInstance (getComponentInstance stOn "core.plugin-installer" none).2.2
        "core.plugin-installer" none).1
        = .ok ⟨stOn.alloc + 1, "core.plugin-installer"⟩) ∧
    (getComponentInstance stOn "core.plugin-installer" (some [])
        = (.ok ⟨stOn.alloc, "core.plugin-installer"⟩,
           some [("core.plugin-installer", ⟨stOn.alloc, "core.plugin-installer"⟩)],
           { stOn with alloc := stOn.alloc + 1 })) ∧
    (∀ inst : CompInstance,
      (getComponentInstance stOn "core.plugin-installer"
          (some [("core.plugin-installer", inst)])).1 = .ok inst ∧
      (getComponentInstance stOn "core.plugin-installer"
          (some [("core.plugin-installer", inst)])).2.2.alloc = stOn.alloc) ∧
    (assocFind stOn.componentsCache "core.plugin-installer" = none →
      (getComponent stOn "core.plugin-installer" none).1
          = .ok (.leaf "@lando/plugin-installer") ∧
      (getComponent stOn "core.plugin-installer" none).2.1.componentsCache
          = ("core.plugin-installer", .leaf "@lando/plugin-installer")
              :: stOn.componentsCache) :=
  C9_no_default_instance_cache stOn "core.plugin-installer"
    (.leaf "@lando/plugin-installer") rfl

/-- C10 counterexample: the claim quantifies over every Bootstrap state, but on
a state whose caching is disabled (no-op backend) `getHooks()` caches nothing
under `hooks` and a later call re-runs hooks discovery (the compute counter
rises again), refuting "it caches that empty list under the key 'hooks' so
every later call returns the cached empty list without rediscovery" — even
though both calls do return the empty list. -/
theorem C10_counterexample :
    (getHooks stOff).1 = [] ∧
    (getHooks (getHooks stOff).2).1 = [] ∧
    (getHooks stOff).2.cache.hooks = none ∧
    (getHooks (getHooks stOff).2).2.hookComputeCount = stOff.hookComputeCount + 2 ∧
    ¬ ((getHooks (getHooks stOff).2).2.hookComputeCount
        = (getHooks stOff).2.hookComputeCount) := by
  refine ⟨rfl, rfl, rfl, rfl, by decide⟩

/-- C10 amended: in every state this program can reach (the `hooks` slot is
absent or holds the empty list this program alone writes), `getHooks()`
returns the empty list — both manifest aggregation sources are commented out —
and when caching is enabled it stores the empty list under `hooks`, after
which a later call returns the cached list with the state unchanged (no
rediscovery). -/
theorem C10_getHooks_empty (st : ProductState)
    (h : st.cache.hooks = none ∨ st.cache.hooks = some []) :
    (getHooks st).1 = [] ∧
    ((getHooks st).2.cache.hooks = none ∨ (getHooks st).2.cache.hooks = some []) ∧
    (st.caching = true →
      (getHooks st).2.cache.hooks = some [] ∧
      getHooks (getHooks st).2 = ([], (getHooks st).2)) := by
  cases hc : st.caching
  · have hre : st.readHooks = none := by simp [ProductState.readHooks, hc]
    have hfirst : getHooks st
        = ([], ({ st with hookComputeCount := st.hookComputeCount + 1 }).writeHooks []) := by
      unfold getHooks
      rw [hre]
      rfl
    rw [hfirst]
    simp [ProductState.writeHooks, hc]
    exact h
  · rcases h with h | h
    · have hre : st.readHooks = none := by simp [ProductState.readHooks, hc, h]
      have hfirst : getHooks st
          = ([], ({ st with hookComputeCount := st.hookComputeCount + 1 }).writeHooks []) := by
        unfold getHooks
        rw [hre]
        rfl
      rw [hfirst]
      simp [ProductState.writeHooks, hc, getHooks, ProductState.readHooks]
    · have hre : st.readHooks = some [] := by simp [ProductState.readHooks, hc, h]
      have hfirst : getHooks st = ([], st) := by
        unfold getHooks
        rw [hre]
      rw [hfirst]
      simp [hc, h, getHooks, hre]

theorem C10_getHooks_empty_witness :
    (getHooks stRaw).1 = [] ∧
    ((getHooks stRaw).2.cache.hooks = none ∨ (getHooks stRaw).2.cache.hooks = some []) ∧
    (stRaw.caching = true →
      (getHooks stRaw).2.cache.hooks = some [] ∧
      getHooks (getHooks stRaw).2 = ([], (getHooks stRaw).2)) :=
  C10_getHooks_empty stRaw (Or.inl rfl)

end LandoCoreNext
